import Mathlib

set_option maxRecDepth 100000
set_option maxHeartbeats 1000000

/-!
Shallow embedding of the core of `Markdown2PDF.py` (class `ConvertThread`
and its helpers), developed for checking the repository's specification.

The math-normalization pipeline (`simplify_math_formula`,
`process_math_formulas`, `convert_markdown_with_math`) is a chain of
Python `re.sub` calls.  Each regex used by the source is embedded here as
an executable matcher on `List Char`, and `rsub` reproduces `re.sub`'s
left-to-right, non-overlapping substitution discipline.  The external
`markdown` library is a third-party collaborator and is modelled as an
abstract conversion function; `pdfkit`/`wkhtmltopdf` are modelled at
their interface boundary (success/failure of one invocation).
-/

/-- A matcher tries to recognise one regex match at the head of the
input; on success it returns the replacement text and the rest of the
input after the matched span.  Every matcher below consumes at least one
character on success, as every pattern in the source matches a nonempty
span. -/
abbrev Matcher := List Char → Option (List Char × List Char)

/-- One `re.sub` pass with explicit fuel: scan left to right, replace
each match and continue after it, copy unmatched characters.  Fuel is an
upper bound on the number of scanning steps; `rsub` supplies the length
of the input, which suffices because every step consumes at least one
input character. -/
def rsubFuel (m : Matcher) : Nat → List Char → List Char
  | 0, s => s
  | _ + 1, [] => []
  | fuel + 1, c :: rest =>
    match m (c :: rest) with
    | some (rep, rest') => rep ++ rsubFuel m fuel rest'
    | none => c :: rsubFuel m fuel rest

/-- `re.sub pattern replacement s` for one of the source's patterns. -/
def rsub (m : Matcher) (s : List Char) : List Char :=
  rsubFuel m s.length s

/-- Strip a literal pattern from the head of the input. -/
def stripP : List Char → List Char → Option (List Char)
  | [], s => some s
  | _ :: _, [] => none
  | p :: ps, c :: cs => if p = c then stripP ps cs else none

/-- The matcher for a literal pattern with a literal replacement. -/
def litM (pat rep : String) : Matcher := fun s =>
  match stripP pat.toList s with
  | some rest => some (rep.toList, rest)
  | none => none

/-- Greedy `p+`: take a nonempty maximal run of characters satisfying
`p`, returning the run and the rest. -/
def takeWhile1 (p : Char → Bool) (s : List Char) : Option (List Char × List Char) :=
  let t := s.takeWhile p
  if t.isEmpty then none else some (t, s.dropWhile p)

/-- Split at the first closing brace: `[^\x7d]*\x7d`.  Returns the
characters before the brace and the rest after it. -/
def braceSplit : List Char → Option (List Char × List Char)
  | [] => none
  | c :: r =>
    if c = '\x7d' then some ([], r)
    else
      match braceSplit r with
      | some (b, r') => some (c :: b, r')
      | none => none

/-- `([^\x7d]+)\x7d`: like `braceSplit` but the captured group must be
nonempty, as required by the `+` in every brace group of the source. -/
def braceContent1 (s : List Char) : Option (List Char × List Char) :=
  match braceSplit s with
  | some ([], _) => none
  | some (b, r) => some (b, r)
  | none => none

/-- `e\^-([a-zA-Z0-9]+)` → `e<sup>-\1</sup>` (line 733). -/
def eCaretDashM : Matcher := fun s =>
  match stripP "e^-".toList s with
  | some r =>
    match takeWhile1 Char.isAlphanum r with
    | some (g, r') => some ("e<sup>-".toList ++ g ++ "</sup>".toList, r')
    | none => none
  | none => none

/-- `e\^\x7b([^\x7d]+)\x7d` → `e<sup>\1</sup>` (line 734). -/
def eCaretBraceM : Matcher := fun s =>
  match stripP "e^\x7b".toList s with
  | some r =>
    match braceContent1 r with
    | some (g, r') => some ("e<sup>".toList ++ g ++ "</sup>".toList, r')
    | none => none
  | none => none

/-- `_\x7b([^\x7d]+)\x7d\^\x7b([^\x7d]+)\x7d` → `<sub>\1</sub><sup>\2</sup>`
(lines 737-738, repeated at 762-763). -/
def subSupM : Matcher := fun s =>
  match stripP "_\x7b".toList s with
  | some r =>
    match braceContent1 r with
    | some (a, r1) =>
      match stripP "^\x7b".toList r1 with
      | some r2 =>
        match braceContent1 r2 with
        | some (b, r3) =>
          some ("<sub>".toList ++ a ++ "</sub><sup>".toList ++ b ++ "</sup>".toList, r3)
        | none => none
      | none => none
    | none => none
  | none => none

/-- `\^\x7b([^\x7d]+)\x7d_\x7b([^\x7d]+)\x7d` → `<sup>\1</sup><sub>\2</sub>`
(lines 739-740, repeated at 764-765). -/
def supSubM : Matcher := fun s =>
  match stripP "^\x7b".toList s with
  | some r =>
    match braceContent1 r with
    | some (a, r1) =>
      match stripP "_\x7b".toList r1 with
      | some r2 =>
        match braceContent1 r2 with
        | some (b, r3) =>
          some ("<sup>".toList ++ a ++ "</sup><sub>".toList ++ b ++ "</sub>".toList, r3)
        | none => none
      | none => none
    | none => none
  | none => none

/-- `\\frac\x7b([^\x7d]+)\x7d\x7b([^\x7d]+)\x7d` → fraction markup
(lines 709-712, 743-744). -/
def fracM : Matcher := fun s =>
  match stripP "\\frac\x7b".toList s with
  | some r =>
    match braceContent1 r with
    | some (a, r1) =>
      match stripP "\x7b".toList r1 with
      | some r2 =>
        match braceContent1 r2 with
        | some (b, r3) =>
          some ("<span class=\"fraction\"><span class=\"numerator\">".toList ++ a
                  ++ "</span><span>".toList ++ b ++ "</span></span>".toList, r3)
        | none => none
      | none => none
    | none => none
  | none => none

/-- `(\d+)/(\d+)` → `<sup>\1</sup>&frasl;<sub>\2</sub>` (lines 747-748). -/
def divM : Matcher := fun s =>
  match takeWhile1 Char.isDigit s with
  | some (d1, r1) =>
    match stripP "/".toList r1 with
    | some r2 =>
      match takeWhile1 Char.isDigit r2 with
      | some (d2, r3) =>
        some ("<sup>".toList ++ d1 ++ "</sup>&frasl;<sub>".toList ++ d2 ++ "</sub>".toList, r3)
      | none => none
    | none => none
  | none => none

/-- `\\sum_\x7b([^\x7d]+)\x7d\^\x7b([^\x7d]+)\x7d` → `∑<sub>\1</sub><sup>\2</sup>`
(lines 715-718, 751-752). -/
def sumM : Matcher := fun s =>
  match stripP "\\sum_\x7b".toList s with
  | some r =>
    match braceContent1 r with
    | some (a, r1) =>
      match stripP "^\x7b".toList r1 with
      | some r2 =>
        match braceContent1 r2 with
        | some (b, r3) =>
          some ("∑<sub>".toList ++ a ++ "</sub><sup>".toList ++ b ++ "</sup>".toList, r3)
        | none => none
      | none => none
    | none => none
  | none => none

/-- `\\int_\x7b([^\x7d]+)\x7d\^\x7b([^\x7d]+)\x7d` → `∫<sub>\1</sub><sup>\2</sup>`
(lines 721-724, 755-756). -/
def intM : Matcher := fun s =>
  match stripP "\\int_\x7b".toList s with
  | some r =>
    match braceContent1 r with
    | some (a, r1) =>
      match stripP "^\x7b".toList r1 with
      | some r2 =>
        match braceContent1 r2 with
        | some (b, r3) =>
          some ("∫<sub>".toList ++ a ++ "</sub><sup>".toList ++ b ++ "</sup>".toList, r3)
        | none => none
      | none => none
    | none => none
  | none => none

/-- `\\sqrt\[(\d+)\]\x7b([^\x7d]+)\x7d` → `<sup>\1</sup>√\2` (lines 727-730, 759). -/
def sqrtIdxM : Matcher := fun s =>
  match stripP "\\sqrt[".toList s with
  | some r =>
    match takeWhile1 Char.isDigit r with
    | some (d, r1) =>
      match stripP "]\x7b".toList r1 with
      | some r2 =>
        match braceContent1 r2 with
        | some (b, r3) => some ("<sup>".toList ++ d ++ "</sup>√".toList ++ b, r3)
        | none => none
      | none => none
    | none => none
  | none => none

/-- `\\bar\x7b([^\x7d]+)\x7d` → overlined span (line 787). -/
def barM : Matcher := fun s =>
  match stripP "\\bar\x7b".toList s with
  | some r =>
    match braceContent1 r with
    | some (g, r') =>
      some ("<span style=\"text-decoration: overline;\">".toList ++ g ++ "</span>".toList, r')
    | none => none
  | none => none

/-- `\\vec\x7b([^\x7d]+)\x7d` → overlined span (line 791). -/
def vecM : Matcher := fun s =>
  match stripP "\\vec\x7b".toList s with
  | some r =>
    match braceContent1 r with
    | some (g, r') =>
      some ("<span style=\"text-decoration: overline;\">".toList ++ g ++ "</span>".toList, r')
    | none => none
  | none => none

/-- `_\x7b([^\x7d]+)\x7d` → `<sub>\1</sub>` (line 815). -/
def subBraceM : Matcher := fun s =>
  match stripP "_\x7b".toList s with
  | some r =>
    match braceContent1 r with
    | some (g, r') => some ("<sub>".toList ++ g ++ "</sub>".toList, r')
    | none => none
  | none => none

/-- `_([a-zA-Z0-9])` → `<sub>\1</sub>` (line 816). -/
def subCharM : Matcher := fun s =>
  match s with
  | '_' :: c :: r =>
    if c.isAlphanum then some ("<sub>".toList ++ [c] ++ "</sub>".toList, r) else none
  | _ => none

/-- `\^\x7b([^\x7d]+)\x7d` → `<sup>\1</sup>` (line 817). -/
def supBraceM : Matcher := fun s =>
  match stripP "^\x7b".toList s with
  | some r =>
    match braceContent1 r with
    | some (g, r') => some ("<sup>".toList ++ g ++ "</sup>".toList, r')
    | none => none
  | none => none

/-- `\^([a-zA-Z0-9])` → `<sup>\1</sup>` (line 818). -/
def supCharM : Matcher := fun s =>
  match s with
  | '^' :: c :: r =>
    if c.isAlphanum then some ("<sup>".toList ++ [c] ++ "</sup>".toList, r) else none
  | _ => none

/-- The ordered `replacements` dictionary of `simplify_math_formula`
(lines 768-819).  Python dictionaries preserve insertion order and the
source iterates the entries with one `re.sub` per entry, so the list
order below is the substitution order. -/
def replacementRules : List Matcher :=
  [ litM "\\int" "∫"
  , litM "\\sum" "∑"
  , litM "\\prod" "∏"
  , litM "\\infty" "∞"
  , litM "\\pm" "±"
  , litM "\\times" "×"
  , litM "\\cdot" "·"
  , litM "\\leq" "≤"
  , litM "\\geq" "≥"
  , litM "\\neq" "≠"
  , litM "\\approx" "≈"
  , litM "\\sin" "sin"
  , litM "\\cos" "cos"
  , litM "\\tan" "tan"
  , litM "\\log" "log"
  , litM "\\ln" "ln"
  , litM "\\lim" "lim"
  , barM
  , litM "\\partial" "∂"
  , litM "\\rightarrow" "→"
  , vecM
  , litM "\\begin\x7bpmatrix\x7d" "("
  , litM "\\end\x7bpmatrix\x7d" ")"
  , litM "\\det" "det"
  , litM "\\alpha" "α"
  , litM "\\beta" "β"
  , litM "\\gamma" "γ"
  , litM "\\delta" "δ"
  , litM "\\theta" "θ"
  , litM "\\lambda" "λ"
  , litM "\\mu" "μ"
  , litM "\\pi" "π"
  , litM "\\sigma" "σ"
  , litM "\\phi" "φ"
  , litM "\\omega" "ω"
  , litM "\\to" "→"
  , litM "\\in" "∈"
  , litM "\\subset" "⊂"
  , litM "\\cup" "∪"
  , litM "\\cap" "∩"
  , litM "\\sqrt" "√"
  , litM "e^x" "eˣ"
  , litM "^2" "²"
  , litM "^3" "³"
  , subBraceM
  , subCharM
  , supBraceM
  , supCharM ]

/-- `ConvertThread.simplify_math_formula` (lines 698-832): the full
ordered rewrite pipeline over one captured formula body. -/
def simplifyL (s : List Char) : List Char :=
  let s1 := rsub eCaretDashM s
  let s2 := rsub eCaretBraceM s1
  let s3 := rsub subSupM s2
  let s4 := rsub supSubM s3
  let s5 := rsub fracM s4
  let s6 := rsub divM s5
  let s7 := rsub sumM s6
  let s8 := rsub intM s7
  let s9 := rsub sqrtIdxM s8
  let s10 := rsub subSupM s9
  let s11 := rsub supSubM s10
  let s12 := replacementRules.foldl (fun acc m => rsub m acc) s11
  let s13 := rsub (litM "H_2O" "H₂O") s12
  let s14 := rsub (litM "H_2" "H₂") s13
  let s15 := rsub (litM "O_2" "O₂") s14
  let s16 := rsub (litM "CH_4" "CH₄") s15
  rsub (litM "CO_2" "CO₂") s16

/-- `ConvertThread.simplify_math_formula` on strings. -/
def ConvertThread.simplify_math_formula (s : String) : String :=
  (simplifyL s.toList).asString

/-- The lazy group of the inline pattern `\$(.*?)\$` (line 679): find the
next `$`, failing if a newline comes first (`.` does not match `\n`
without DOTALL).  Returns the captured body and the rest after the
closing `$`. -/
def splitAtDollarNoNl : List Char → Option (List Char × List Char)
  | [] => none
  | c :: r =>
    if c = '$' then some ([], r)
    else if c = '\n' then none
    else
      match splitAtDollarNoNl r with
      | some (b, r') => some (c :: b, r')
      | none => none

/-- The lazy group of the block pattern `\$\$(.*?)\$\$` with DOTALL
(lines 684-686): find the earliest following `$$`; the body may contain
anything, newlines included. -/
def splitAtDoubleDollar : List Char → Option (List Char × List Char)
  | [] => none
  | c :: r =>
    if c = '$' then
      match r with
      | '$' :: r' => some ([], r')
      | _ =>
        match splitAtDoubleDollar r with
        | some (b, r') => some (c :: b, r')
        | none => none
    else
      match splitAtDoubleDollar r with
      | some (b, r') => some (c :: b, r')
      | none => none

/-- `inline_math_replacer` applied at a `\$(.*?)\$` match (lines 663-668):
wrap the simplified body in the inline container. -/
def inlineMathM : Matcher := fun s =>
  match s with
  | [] => none
  | c :: rest =>
    if c = '$' then
      match splitAtDollarNoNl rest with
      | some (body, rest') =>
        some ("<span class=\"math-inline\">".toList ++ simplifyL body ++ "</span>".toList, rest')
      | none => none
    else none

/-- `block_math_replacer` applied at a `\$\$(.*?)\$\$` match (lines
670-675): wrap the simplified body in the block container. -/
def blockMathM : Matcher := fun s =>
  match s with
  | c :: c2 :: rest =>
    if c = '$' ∧ c2 = '$' then
      match splitAtDoubleDollar rest with
      | some (body, rest') =>
        some ("<div class=\"math-display\">".toList ++ simplifyL body ++ "</div>".toList, rest')
      | none => none
    else none
  | _ => none

/-- The substituted Markdown source built by `process_math_formulas`
(lines 677-686): the inline substitution is applied to the raw source
first, then the block substitution is applied to the result. -/
def mathSubstitutedSource (s : List Char) : List Char :=
  rsub blockMathM (rsub inlineMathM s)

/-- The external `markdown` library, an out-of-scope collaborator: an
abstract total-or-failing conversion from Markdown text to HTML text.
The source wraps each `md.convert` call in a `try`/`except`, modelled by
the `Option`. -/
abbrev MarkdownConverter := List Char → Option (List Char)

/-- `ConvertThread.process_math_formulas` (lines 659-696): substitute
math spans in the raw Markdown, reconvert with a second Markdown
converter, and fall back to the first-pass HTML if that conversion
fails. -/
def ConvertThread.process_math_formulas (md2 : MarkdownConverter)
    (htmlContent originalMarkdown : List Char) : List Char :=
  match md2 (mathSubstitutedSource originalMarkdown) with
  | some finalHtml => finalHtml
  | none => htmlContent

/-- `ConvertThread.convert_markdown_with_math` (lines 621-657): convert
the Markdown (first pass, `toc` extension included), then process math
formulas; if the first pass fails, fall back to a `<pre>` wrapping of
the original source. -/
def ConvertThread.convert_markdown_with_math (md1 md2 : MarkdownConverter)
    (original : List Char) : List Char :=
  match md1 original with
  | none => "<pre>".toList ++ original ++ "</pre>".toList
  | some htmlContent => ConvertThread.process_math_formulas md2 htmlContent original

/-- The asynchronous events `ConvertThread` emits to the GUI collaborator:
the `progress`, `log_message`, `finished` and `error` Qt signals
(lines 215-218). -/
inductive Event
  | progress (percent : Nat)
  | log (line : String)
  | finished
  | error (message : String)
  deriving DecidableEq

/-- One input file of a batch, modelled at the interface boundary of the
file system and of `pdfkit`: its path, whether the UTF-8 read succeeds,
whether the `pdfkit.from_string` invocation succeeds, and the exception
text used when either fails. -/
structure FileJob where
  name : String
  readOk : Bool
  renderOk : Bool
  err : String
  deriving DecidableEq

/-- The per-run input of `ConvertThread.run` in batch mode: the
`wkhtmltopdf` validation outcome and the ordered list of input files. -/
structure BatchConfig where
  wkValid : Bool
  wkMsg : String
  files : List FileJob
  deriving DecidableEq

/-- The installation guidance returned by
`WkHtmlToPdfManager.download_wkhtmltopdf` (lines 164-182). -/
def downloadGuidance : String :=
  "未找到wkhtmltopdf工具！\n\n请按照以下步骤操作：\n1. 访问官方下载页面：https://wkhtmltopdf.org/downloads.html\n2. 根据您的系统选择合适的版本下载\n3. 安装时建议选择完整版（包含GUI组件）\n4. 安装完成后重启本程序\n5. 或者手动指定wkhtmltopdf.exe的路径\n\n常见安装路径：\n- C:\\Program Files\\wkhtmltopdf\\bin\\wkhtmltopdf.exe\n- C:\\Program Files (x86)\\wkhtmltopdf\\bin\\wkhtmltopdf.exe\n\n注意：需要下载包含GUI组件的完整版本。"

/-- The fatal validation message emitted when `validate_wkhtmltopdf`
fails (lines 236-238). -/
def fatalMessage (validationMsg : String) : String :=
  ("wkhtmltopdf验证失败：" ++ validationMsg ++ "\n\n") ++ downloadGuidance

/-- `os.path.splitext(name)[0]` on a base name: split before the last
dot, where leading dots (as in `.bashrc`) never start an extension. -/
def stemChars (l : List Char) : List Char :=
  let lead := l.takeWhile (· = '.')
  let rest := l.dropWhile (· = '.')
  if '.' ∈ rest then lead ++ ((rest.reverse.dropWhile (· ≠ '.')).drop 1).reverse
  else l

/-- The derived output file name `f'.pdf'` (line 265). -/
def pdfNameOf (name : String) : String :=
  (stemChars name.toList).asString ++ ".pdf"

/-- The per-file progress log line (lines 269-270). -/
def processingLog (i total : Nat) (name : String) : Event :=
  .log ("[" ++ toString i ++ "/" ++ toString total ++ "] 正在处理: " ++ name)

/-- The per-file failure log line (lines 321-322). -/
def failLog (f : FileJob) : Event :=
  .log ("✗ 处理文件 " ++ f.name ++ " 时出错: " ++ f.err)

/-- The batch start log line (line 251). -/
def startLog (total : Nat) : Event :=
  .log ("开始转换 " ++ toString total ++ " 个文件...")

/-- Integer division rounded half to even, the rounding IEEE-754 uses. -/
def rhe (p q : Nat) : Nat :=
  let d := p / q
  let r := p % q
  if 2 * r < q then d
  else if q < 2 * r then d + 1
  else if d % 2 = 0 then d else d + 1

/-- `⌊log2 n⌋` with an explicit fuel bound (structural recursion, so it
reduces inside the kernel; `n` itself bounds the recursion depth). -/
def log2F : Nat → Nat → Nat
  | 0, _ => 0
  | fuel + 1, n => if n ≤ 1 then 0 else log2F fuel (n / 2) + 1

/-- `⌊log2 n⌋` for positive `n` (0 at 0). -/
def log2E (n : Nat) : Nat := log2F n n

/-- Whether `2 ^ f ≤ num / den`, for a signed exponent `f`. -/
def geTwoPow (num den : Nat) (f : Int) : Bool :=
  if 0 ≤ f then decide (den * 2 ^ f.toNat ≤ num)
  else decide (den ≤ num * 2 ^ (-f).toNat)

/-- `⌊log2 (num / den)⌋` for positive `num`, `den`. -/
def flog2 (num den : Nat) : Int :=
  let c : Int := (log2E num : Int) - (log2E den : Int)
  if geTwoPow num den c then c else c - 1

/-- Round the positive rational `num / den` to the nearest IEEE-754
binary64 value (53-bit significand, round half to even), returned as a
significand/exponent pair `(s, e)` with value `s * 2 ^ e` and
`2 ^ 52 ≤ s < 2 ^ 53`.  Exact for the normal range, which covers every
value arising here (`i / total ∈ (0, 1]` and its product with 100) for
any batch that can physically exist. -/
def roundToBinary64 (num den : Nat) : Nat × Int :=
  let e : Int := flog2 num den - 52
  let s : Nat :=
    if 0 ≤ e then rhe num (den * 2 ^ e.toNat)
    else rhe (num * 2 ^ (-e).toNat) den
  if s = 2 ^ 53 then (2 ^ 52, e + 1) else (s, e)

/-- `⌊s * 2 ^ e⌋` for a signed exponent, i.e. `int()` truncation of a
nonnegative double given as a significand/exponent pair. -/
def floorScaled (s : Nat) (e : Int) : Nat :=
  if 0 ≤ e then s * 2 ^ e.toNat else s / 2 ^ (-e).toNat

/-- `int((i / total) * 100)` exactly as CPython computes it (line 330):
`i / total` is the correctly rounded binary64 quotient, the product with
the exact double `100.0` is again correctly rounded, and `int()`
truncates.  Because of the double roundings this can fall below the
exact `⌊i * 100 / total⌋`: e.g. `pyProgress 29 100 = 28`. -/
def pyProgress (i total : Nat) : Nat :=
  let d := roundToBinary64 i total
  let p :=
    if 0 ≤ d.2 then roundToBinary64 (d.1 * 100 * 2 ^ d.2.toNat) 1
    else roundToBinary64 (d.1 * 100) (2 ^ (-d.2).toNat)
  floorScaled p.1 p.2

/-- One iteration of the loop of `ConvertThread.run` (lines 257-331) for
the 1-based file index `i`: the events it emits, in order, and the PDF
it creates (if any).  A read or renderer failure is caught by the
per-file `except`, logged, and followed by `continue`, which also skips
the progress update; only on success is the truncated percentage
`int((i / total) * 100)` emitted, computed in binary64 as `pyProgress`. -/
def processFile (i total : Nat) (f : FileJob) : List Event × Option String :=
  if f.readOk && f.renderOk then
    ([processingLog i total f.name, .log ("✓ 成功生成: " ++ pdfNameOf f.name),
      .progress (pyProgress i total)], some (pdfNameOf f.name))
  else
    ([processingLog i total f.name, failLog f], none)

/-- `ConvertThread.run` in batch mode (lines 232-339): validate
`wkhtmltopdf` first and stop with the `error` signal if that fails;
otherwise iterate the files in order, then emit the completion log and
the `finished` signal.  Returns the emitted events, in order, together
with the list of PDFs created. -/
def ConvertThread.run (cfg : BatchConfig) : List Event × List String :=
  if cfg.wkValid = false then
    ([.error (fatalMessage cfg.wkMsg)], [])
  else
    let total := cfg.files.length
    if total = 0 then
      ([startLog total, .error "没有找到要转换的文件！"], [])
    else
      let steps := (List.enumFrom 1 cfg.files).map (fun p => processFile p.1 total p.2)
      (startLog total :: (steps.map Prod.fst).flatten ++ [.log "转换完成！", .finished],
        (steps.map Prod.snd).reduceOption)

/-- Project one event onto its `progress` payload, if any. -/
def progressOf : Event → Option Nat
  | .progress n => some n
  | _ => none

/-- The `progress` signal values carried by an event stream, in order. -/
def progressValues (events : List Event) : List Nat :=
  events.filterMap progressOf

/-- One `ConversionJob` at the interface boundary of the file system:
header/footer text (already stripped), the 1-based file index used in
the temporary file names, whether the read and the renderer invocation
succeed, and whether `os.remove` succeeds on each temporary file during
cleanup. -/
structure JobConfig where
  header : String
  footer : String
  idx : Nat
  readOk : Bool
  renderOk : Bool
  headerRemoveOk : Bool
  footerRemoveOk : Bool
  deriving DecidableEq

/-- The terminal status of one `ConversionJob`. -/
inductive JobOutcome
  | succeeded
  | failed
  deriving DecidableEq

/-- `cleanup_temp_files` on one candidate path (lines 612-619): nothing
to do when the path was never created; otherwise remove it, and on
failure keep the file and log a warning via `logger.warning` — the
exception is swallowed.  Returns (files left on disk, warnings). -/
def cleanupOne (tempFile : Option String) (removeOk : Bool) : List String × List String :=
  match tempFile with
  | none => ([], [])
  | some name =>
    if removeOk then ([], [])
    else ([name], ["清理临时文件失败 " ++ name])

/-- The temporary header file path created for index `i` when the header
text is nonempty (lines 288-294); `none` when the read failed earlier or
the header is empty. -/
def headerTempOf (cfg : JobConfig) : Option String :=
  if cfg.readOk && !(cfg.header == "") then some ("header_temp_" ++ toString cfg.idx ++ ".html")
  else none

/-- The temporary footer file path created for index `i` when the footer
text is nonempty (lines 296-302). -/
def footerTempOf (cfg : JobConfig) : Option String :=
  if cfg.readOk && !(cfg.footer == "") then some ("footer_temp_" ++ toString cfg.idx ++ ".html")
  else none

/-- One `ConversionJob` (the per-file body of the loop, lines 258-327):
read, create header/footer temporaries, render, invoke the renderer,
and always run `cleanup_temp_files` in the `finally` block before the
outcome is final.  Returns the outcome, the temporary files still on
disk afterwards, and the cleanup warnings. -/
def runJob (cfg : JobConfig) : JobOutcome × List String × List String :=
  let outcome := if cfg.readOk && cfg.renderOk then JobOutcome.succeeded else JobOutcome.failed
  let hClean := cleanupOne (headerTempOf cfg) cfg.headerRemoveOk
  let fClean := cleanupOne (footerTempOf cfg) cfg.footerRemoveOk
  (outcome, hClean.1 ++ fClean.1, hClean.2 ++ fClean.2)

/-- A value of the `wkhtmltopdf` options dictionary (lines 586-602):
either a boolean flag or a string value. -/
inductive OptValue
  | flag (b : Bool)
  | str (v : String)
  deriving DecidableEq

/-- The user-facing configuration read by `create_pdf_options`: page
size and encoding combo texts and the four margin spinbox values. -/
structure PdfConfig where
  pageSize : String
  marginTop : Nat
  marginRight : Nat
  marginBottom : Nat
  marginLeft : Nat
  encoding : String
  deriving DecidableEq

/-- `ConvertThread.create_pdf_options` (lines 576-610): the ordered
options dictionary handed to `pdfkit`, with `header-html`/`footer-html`
present if and only if the corresponding temporary path exists. -/
def ConvertThread.create_pdf_options (cfg : PdfConfig)
    (headerPath footerPath : Option String) : List (String × OptValue) :=
  let base : List (String × OptValue) :=
    [ ("page-size", .str cfg.pageSize)
    , ("margin-top", .str (toString cfg.marginTop ++ "mm"))
    , ("margin-right", .str (toString cfg.marginRight ++ "mm"))
    , ("margin-bottom", .str (toString cfg.marginBottom ++ "mm"))
    , ("margin-left", .str (toString cfg.marginLeft ++ "mm"))
    , ("encoding", .str cfg.encoding)
    , ("enable-local-file-access", .flag true)
    , ("disable-external-links", .flag true)
    , ("disable-internal-links", .flag true)
    , ("no-images", .flag false)
    , ("disable-javascript", .flag true)
    , ("header-spacing", .str "5")
    , ("footer-spacing", .str "5")
    , ("footer-right", .str "[page]/[toPage]")
    , ("footer-font-size", .str "10") ]
  let withHeader :=
    match headerPath with
    | some p => base ++ [("header-html", .str p)]
    | none => base
  match footerPath with
  | some p => withHeader ++ [("footer-html", .str p)]
  | none => withHeader

/-- A batch used as concrete witness input: the first file fails to read,
the second succeeds. -/
def batchFirstFails : BatchConfig :=
  ⟨true, "", [⟨"a.md", false, true, "read error"⟩, ⟨"b.md", true, true, ""⟩]⟩

/-- A batch of three files that all succeed. -/
def batchAllOk : BatchConfig :=
  ⟨true, "", [⟨"a.md", true, true, ""⟩, ⟨"b.md", true, true, ""⟩, ⟨"c.md", true, true, ""⟩]⟩

/-- The fixed symbol table of `simplify_math_formula` (lines 768-819):
each one-to-one substitution entry paired with its expected Unicode
character or plain-text name.  The Greek-letter entries are exactly the
ones present in the source's table. -/
def mathSymbolTable : List (String × String) :=
  [ ("\\int", "∫"), ("\\sum", "∑"), ("\\prod", "∏"), ("\\infty", "∞"), ("\\pm", "±")
  , ("\\times", "×"), ("\\cdot", "·"), ("\\leq", "≤"), ("\\geq", "≥"), ("\\neq", "≠")
  , ("\\approx", "≈"), ("\\sin", "sin"), ("\\cos", "cos"), ("\\tan", "tan"), ("\\log", "log")
  , ("\\ln", "ln"), ("\\lim", "lim"), ("\\partial", "∂"), ("\\rightarrow", "→"), ("\\to", "→")
  , ("\\in", "∈"), ("\\subset", "⊂"), ("\\cup", "∪"), ("\\cap", "∩"), ("\\sqrt", "√")
  , ("\\alpha", "α"), ("\\beta", "β"), ("\\gamma", "γ"), ("\\delta", "δ"), ("\\theta", "θ")
  , ("\\lambda", "λ"), ("\\mu", "μ"), ("\\pi", "π"), ("\\sigma", "σ"), ("\\phi", "φ")
  , ("\\omega", "ω"), ("\\det", "det") ]

/-! ### Auxiliary lemmas -/

lemma inlineMathM_none (c : Char) (r : List Char) (hc : c ≠ '$') :
    inlineMathM (c :: r) = none := by
  simp [inlineMathM, hc]

lemma blockMathM_none (c : Char) (r : List Char) (hc : c ≠ '$') :
    blockMathM (c :: r) = none := by
  cases r <;> simp [blockMathM, hc]

lemma rsubFuel_no_dollar (m : Matcher) (hm : ∀ c r, c ≠ '$' → m (c :: r) = none)
    (fuel : Nat) (s : List Char) (h : '$' ∉ s) : rsubFuel m fuel s = s := by
  induction s generalizing fuel with
  | nil => cases fuel <;> rfl
  | cons c r ih =>
    cases fuel with
    | zero => rfl
    | succ f =>
      have hc : c ≠ '$' := by
        rintro rfl
        exact h (List.mem_cons_self _ _)
      have hr : '$' ∉ r := fun hx => h (List.mem_cons_of_mem _ hx)
      simp [rsubFuel, hm c r hc, ih f hr]

lemma rsub_inline_no_dollar (s : List Char) (h : '$' ∉ s) : rsub inlineMathM s = s :=
  rsubFuel_no_dollar _ (fun c r hc => inlineMathM_none c r hc) _ _ h

lemma rsub_block_no_dollar (s : List Char) (h : '$' ∉ s) : rsub blockMathM s = s :=
  rsubFuel_no_dollar _ (fun c r hc => blockMathM_none c r hc) _ _ h

lemma run_events_eq (cfg : BatchConfig) (hv : cfg.wkValid = true) (hne : cfg.files ≠ []) :
    (ConvertThread.run cfg).1 =
      startLog cfg.files.length ::
        (((List.enumFrom 1 cfg.files).map
            (fun p => (processFile p.1 cfg.files.length p.2).1)).flatten
          ++ [.log "转换完成！", .finished]) := by
  have hlen : ¬ cfg.files.length = 0 := by simpa using hne
  simp only [ConvertThread.run, hv, Bool.true_eq_false, if_neg, hlen, if_false,
    List.map_map, ite_false]
  rfl

lemma getLast?_cons_append_pair {α : Type _} (a x y : α) (l : List α) :
    (a :: (l ++ [x, y])).getLast? = some y := by
  have h : a :: (l ++ [x, y]) = (a :: (l ++ [x])) ++ [y] := by simp
  rw [h, List.getLast?_concat]

lemma filterMap_progress_processFile (i total : Nat) (f : FileJob) :
    List.filterMap progressOf (processFile i total f).1
      = if f.readOk && f.renderOk then [pyProgress i total] else [] := by
  cases hr : f.readOk <;> cases hn : f.renderOk <;>
    simp [processFile, hr, hn, progressOf, processingLog, failLog, List.filterMap_cons]

lemma progress_of_flatten (total : Nat) (l : List (Nat × FileJob)) :
    ((l.map (fun p => (processFile p.1 total p.2).1)).flatten).filterMap progressOf
      = l.filterMap
          (fun p => if p.2.readOk && p.2.renderOk then some (pyProgress p.1 total) else none) := by
  induction l with
  | nil => rfl
  | cons p t ih =>
    rw [List.map_cons, List.flatten_cons, List.filterMap_append, ih,
      filterMap_progress_processFile, List.filterMap_cons]
    cases h : p.2.readOk && p.2.renderOk <;> simp [h]

lemma cleanupOne_warning (o : Option String) (b : Bool) :
    ∀ t ∈ (cleanupOne o b).1, ("清理临时文件失败 " ++ t) ∈ (cleanupOne o b).2 := by
  rcases o with _ | n <;> cases b <;> simp [cleanupOne]

/-! ### Claim theorems -/

/-- C1.  The claim states that block math `$$...$$` is transformed and
wrapped in the `math-display` div, with the block pattern applied to the
raw source and the inline substitution in a second pass.  In the source
the passes run in the opposite order: the inline pattern `\$(.*?)\$` is
applied to the raw Markdown first (lines 679-681), and it consumes every
`$$` delimiter as an empty inline match, so the block pattern
(lines 684-686) never fires: on `$$x+y$$` the substituted source is two
empty `math-inline` spans around the untransformed body, and contains no
`math-display` container at all. -/
theorem c1_block_math_pass_never_fires :
    mathSubstitutedSource "$$x+y$$".toList
        = "<span class=\"math-inline\"></span>x+y<span class=\"math-inline\"></span>".toList ∧
    ¬ ("math-display".toList <:+: mathSubstitutedSource "$$x+y$$".toList) ∧
    mathSubstitutedSource "$$x+y$$".toList ≠ "<div class=\"math-display\">x+y</div>".toList := by
  refine ⟨by decide, by decide, by decide⟩

/-- C5.  For every configuration and any header/footer paths, the options
map built by `create_pdf_options` disables JavaScript and both link
navigation kinds, enables local file access, fixes header/footer spacing
at `5`, the footer page field at `[page]/[toPage]`, and the footer font
size at `10`. -/
theorem c5_options_fixed_entries (cfg : PdfConfig) (headerPath footerPath : Option String) :
    (ConvertThread.create_pdf_options cfg headerPath footerPath).lookup "disable-javascript"
        = some (.flag true) ∧
    (ConvertThread.create_pdf_options cfg headerPath footerPath).lookup "disable-external-links"
        = some (.flag true) ∧
    (ConvertThread.create_pdf_options cfg headerPath footerPath).lookup "disable-internal-links"
        = some (.flag true) ∧
    (ConvertThread.create_pdf_options cfg headerPath footerPath).lookup "enable-local-file-access"
        = some (.flag true) ∧
    (ConvertThread.create_pdf_options cfg headerPath footerPath).lookup "header-spacing"
        = some (.str "5") ∧
    (ConvertThread.create_pdf_options cfg headerPath footerPath).lookup "footer-spacing"
        = some (.str "5") ∧
    (ConvertThread.create_pdf_options cfg headerPath footerPath).lookup "footer-right"
        = some (.str "[page]/[toPage]") ∧
    (ConvertThread.create_pdf_options cfg headerPath footerPath).lookup "footer-font-size"
        = some (.str "10") := by
  cases headerPath <;> cases footerPath <;>
    exact ⟨rfl, rfl, rfl, rfl, rfl, rfl, rfl, rfl⟩

/-- C8.  The claim states that a math span containing `H_2O` is rewritten
to the Unicode-subscript form `H₂O` by the chemical-formula table applied
last.  In the source the generic single-character subscript rule
`_([a-zA-Z0-9])` (line 816) runs first and rewrites `H_2O` to
`H<sub>2</sub>O`, after which the literal patterns `H_2O`, `H_2`, ...
(lines 826-830) can no longer match — the chemical override is
unreachable for its own target inputs. -/
theorem c8_chemical_rewrite_never_fires :
    simplifyL "H_2O".toList = "H<sub>2</sub>O".toList ∧
    ¬ ("H₂O".toList <:+: simplifyL "H_2O".toList) ∧
    simplifyL "CO_2".toList = "CO<sub>2</sub>".toList ∧
    ¬ ("CO₂".toList <:+: simplifyL "CO_2".toList) := by
  refine ⟨by decide, by decide, by decide, by decide⟩

/-- C9.  For an input with no dollar sign and no backslash, both math
substitution passes are the identity, so the pipeline output is exactly
the Markdown-to-HTML conversion of the unchanged input (whenever the
abstract converters succeed, as the real library does). -/
theorem c9_plain_text_passthrough (md1 md2 : MarkdownConverter) (x h y : List Char)
    (hd : '$' ∉ x) (_hb : '\\' ∉ x)
    (h1 : md1 x = some h) (h2 : md2 x = some y) :
    ConvertThread.convert_markdown_with_math md1 md2 x = y := by
  have hi : rsub inlineMathM x = x := rsub_inline_no_dollar x hd
  have hbk : rsub blockMathM x = x := rsub_block_no_dollar x hd
  simp [ConvertThread.convert_markdown_with_math, ConvertThread.process_math_formulas,
    mathSubstitutedSource, h1, hi, hbk, h2]

/-- Witness for C9 at a concrete plain-text input. -/
theorem c9_plain_text_passthrough_witness :
    ConvertThread.convert_markdown_with_math Option.some Option.some "hello *world*".toList
      = "hello *world*".toList :=
  c9_plain_text_passthrough Option.some Option.some "hello *world*".toList
    "hello *world*".toList "hello *world*".toList (by decide) (by decide) rfl rfl

/-- C10.  Normalization is deterministic: `process_math_formulas` and
`simplify_math_formula` are pure functions of their string arguments —
two calls on equal arguments (with the same rendering of the external
converter) return equal results. -/
theorem c10_normalization_deterministic (md2 : MarkdownConverter)
    (h1 h2 o1 o2 s t : List Char) (eh : h1 = h2) (eo : o1 = o2) (es : s = t) :
    ConvertThread.process_math_formulas md2 h1 o1
        = ConvertThread.process_math_formulas md2 h2 o2 ∧
    simplifyL s = simplifyL t := by
  subst eh
  subst eo
  subst es
  exact ⟨rfl, rfl⟩

/-- Witness for C10 at concrete arguments. -/
theorem c10_normalization_deterministic_witness :
    ConvertThread.process_math_formulas Option.some "h".toList "$a$".toList
        = ConvertThread.process_math_formulas Option.some "h".toList "$a$".toList ∧
    simplifyL "\\pi".toList = simplifyL "\\pi".toList :=
  c10_normalization_deterministic Option.some "h".toList "h".toList "$a$".toList "$a$".toList
    "\\pi".toList "\\pi".toList rfl rfl rfl

/-- C2.  With a valid renderer and a nonempty batch, every file — also
every file after a failed one — gets its per-file processing log entry,
every failing file gets its error log entry (the failure is caught and
the loop continues), and the event stream ends with the `finished`
signal regardless of how many files failed. -/
theorem c2_partial_failure_isolation (cfg : BatchConfig)
    (hv : cfg.wkValid = true) (hne : cfg.files ≠ []) :
    (∀ p ∈ List.enumFrom 1 cfg.files,
        processingLog p.1 cfg.files.length p.2.name ∈ (ConvertThread.run cfg).1 ∧
        ((p.2.readOk && p.2.renderOk) = false → failLog p.2 ∈ (ConvertThread.run cfg).1)) ∧
    (ConvertThread.run cfg).1.getLast? = some Event.finished := by
  rw [run_events_eq cfg hv hne]
  constructor
  · intro p hp
    have hblock :
        (processFile p.1 cfg.files.length p.2).1 ∈
          (List.enumFrom 1 cfg.files).map
            (fun q => (processFile q.1 cfg.files.length q.2).1) :=
      List.mem_map_of_mem _ hp
    constructor
    · have hmem : processingLog p.1 cfg.files.length p.2.name ∈
          (processFile p.1 cfg.files.length p.2).1 := by
        cases h : p.2.readOk && p.2.renderOk <;> simp [processFile, h]
      exact List.mem_cons_of_mem _
        (List.mem_append_left _ (List.mem_flatten.mpr ⟨_, hblock, hmem⟩))
    · intro hfail
      have hmem : failLog p.2 ∈ (processFile p.1 cfg.files.length p.2).1 := by
        simp [processFile, hfail]
      exact List.mem_cons_of_mem _
        (List.mem_append_left _ (List.mem_flatten.mpr ⟨_, hblock, hmem⟩))
  · exact getLast?_cons_append_pair _ _ _ _

/-- Witness for C2: the batch whose first file fails still ends with the
`finished` signal. -/
theorem c2_partial_failure_isolation_witness :
    (ConvertThread.run batchFirstFails).1.getLast? = some Event.finished :=
  (c2_partial_failure_isolation batchFirstFails rfl (by decide)).2

/-- C4.  When the `wkhtmltopdf` validation fails, the only emitted event
is the `error` signal carrying the validation message followed by the
installation guidance; no file is processed, no PDF is created, and no
`finished` signal is emitted. -/
theorem c4_fatal_precheck (cfg : BatchConfig) (hv : cfg.wkValid = false) :
    (ConvertThread.run cfg).1 = [.error (fatalMessage cfg.wkMsg)] ∧
    (∃ pre, fatalMessage cfg.wkMsg = pre ++ downloadGuidance) ∧
    (ConvertThread.run cfg).2 = [] ∧
    Event.finished ∉ (ConvertThread.run cfg).1 ∧
    (∀ n, Event.progress n ∉ (ConvertThread.run cfg).1) ∧
    (∀ i total name, processingLog i total name ∉ (ConvertThread.run cfg).1) := by
  refine ⟨by simp [ConvertThread.run, hv], ⟨_, rfl⟩, by simp [ConvertThread.run, hv], ?_, ?_, ?_⟩
  · simp [ConvertThread.run, hv]
  · intro n
    simp [ConvertThread.run, hv]
  · intro i total name
    simp [ConvertThread.run, hv, processingLog]

/-- Witness for C4 at a concrete invalid configuration. -/
theorem c4_fatal_precheck_witness :
    (ConvertThread.run ⟨false, "missing", [⟨"a.md", true, true, ""⟩]⟩).1
      = [.error (fatalMessage "missing")] :=
  (c4_fatal_precheck ⟨false, "missing", [⟨"a.md", true, true, ""⟩]⟩ rfl).1

/-- C6 (amended).  After each successfully processed file with 1-based
index `i`, the emitted progress value is `int((i / totalCount) * 100)`
computed in binary64 floating point — a truncation, not the rounded
value the claim states — and after a failed file no progress value is
emitted at all (the `continue` in the exception handler skips the
progress update). -/
theorem c6_progress_truncated_on_success (cfg : BatchConfig)
    (hv : cfg.wkValid = true) (hne : cfg.files ≠ []) :
    progressValues (ConvertThread.run cfg).1 =
      (List.enumFrom 1 cfg.files).filterMap
        (fun p =>
          if p.2.readOk && p.2.renderOk then some (pyProgress p.1 cfg.files.length)
          else none) := by
  rw [progressValues, run_events_eq cfg hv hne]
  simp only [List.filterMap_cons, List.filterMap_append, List.filterMap_nil,
    List.append_nil, startLog, progressOf, progress_of_flatten]

/-- Witness for the amended C6 at a concrete batch. -/
theorem c6_progress_truncated_on_success_witness :
    progressValues (ConvertThread.run batchFirstFails).1 =
      (List.enumFrom 1 batchFirstFails.files).filterMap
        (fun p =>
          if p.2.readOk && p.2.renderOk then
            some (pyProgress p.1 batchFirstFails.files.length)
          else none) :=
  c6_progress_truncated_on_success batchFirstFails rfl (by decide)

/-- Counterexample to C6 as stated.  With three files that all succeed,
the progress emitted after the second file is `66`, while the claimed
`round(completedCount / totalCount * 100)` is `67`; with two files whose
first fails, only one progress value is emitted for the whole batch —
nothing (in particular not the claimed `round(1/2*100) = 50`) is emitted
after the first file completes; and at `i = 29` of `totalCount = 100` the
double roundings make the code emit `28` where the claim demands `29`. -/
theorem c6_progress_claim_counterexample :
    progressValues (ConvertThread.run batchAllOk).1 = [33, 66, 100] ∧
    round ((2 * 100 : ℚ) / 3) = 67 ∧
    progressValues (ConvertThread.run batchFirstFails).1 = [100] ∧
    round ((1 * 100 : ℚ) / 2) = 50 ∧
    pyProgress 29 100 = 28 ∧
    round ((29 * 100 : ℚ) / 100) = 29 := by
  refine ⟨by decide, by norm_num [round_eq], by decide, by norm_num [round_eq],
    by decide, by norm_num [round_eq]⟩

/-- C3.  The job outcome never depends on whether cleanup removal
succeeds (cleanup failures never escalate to job failure); when both
removals succeed — the normal case — no temporary file survives the job,
on the success path and on every failure path alike; and every surviving
temporary file has a logged warning naming it. -/
theorem c3_cleanup_never_escalates (cfg : JobConfig) (b1 b2 : Bool) :
    (runJob cfg).1 = (runJob { cfg with headerRemoveOk := b1, footerRemoveOk := b2 }).1 ∧
    (cfg.headerRemoveOk = true → cfg.footerRemoveOk = true → (runJob cfg).2.1 = []) ∧
    (∀ t ∈ (runJob cfg).2.1, ("清理临时文件失败 " ++ t) ∈ (runJob cfg).2.2) := by
  refine ⟨by simp [runJob], ?_, ?_⟩
  · intro h1 h2
    show (cleanupOne (headerTempOf cfg) cfg.headerRemoveOk).1
        ++ (cleanupOne (footerTempOf cfg) cfg.footerRemoveOk).1 = []
    rw [h1, h2]
    rcases headerTempOf cfg with _ | p <;> rcases footerTempOf cfg with _ | q <;>
      simp [cleanupOne]
  · intro t ht
    have ht' : t ∈ (cleanupOne (headerTempOf cfg) cfg.headerRemoveOk).1
        ++ (cleanupOne (footerTempOf cfg) cfg.footerRemoveOk).1 := ht
    rcases List.mem_append.mp ht' with h | h
    · exact List.mem_append_left _ (cleanupOne_warning _ _ t h)
    · exact List.mem_append_right _ (cleanupOne_warning _ _ t h)

/-- Witness for C3: a job with header and footer, a failing renderer and
succeeding removals leaves no temporary file behind. -/
theorem c3_cleanup_never_escalates_witness :
    (runJob ⟨"H", "F", 1, true, false, true, true⟩).2.1 = [] :=
  (c3_cleanup_never_escalates ⟨"H", "F", 1, true, false, true, true⟩ true true).2.1 rfl rfl

/-- C7.  For every entry of the fixed symbol table, normalizing a math
span containing just that command yields output containing the expected
Unicode character (or plain-text name) and no literal backslash. -/
theorem c7_symbol_table_coverage :
    ∀ p ∈ mathSymbolTable,
      p.2.toList <:+: simplifyL p.1.toList ∧ '\\' ∉ simplifyL p.1.toList := by
  decide

/-- Witness for C7 at the first table entry. -/
theorem c7_symbol_table_coverage_witness :
    ("∫" : String).toList <:+: simplifyL ("\\int" : String).toList ∧
    '\\' ∉ simplifyL ("\\int" : String).toList :=
  c7_symbol_table_coverage ("\\int", "∫") (by decide)
